import Mathlib

/-!
# LibVault backend — verification of the spec against the code

Shallow embedding of the LibVault FastAPI backend (`main.py`, `schemas.py`).
Documents are association lists of BSON-ish values; the document-store
adapter (`database.py`, not part of the source tree) is modelled from the
spec; every request handler from `main.py` is translated function by
function.
-/

set_option autoImplicit false

namespace LibVault

/-- Values stored in documents (a BSON-ish universe). `objectId` is the
store-native identifier type that handlers must convert with `str(...)`
before returning. Python `datetime` values are modelled as seconds since
the epoch (`dt`). -/
inductive BVal where
  | str : String → BVal
  | objectId : String → BVal
  | int : Int → BVal
  | bool : Bool → BVal
  | dt : Nat → BVal
  | strList : List String → BVal
  deriving DecidableEq, Repr

/-- A document / Python dict: an association list from field names to values. -/
abbrev Doc := List (String × BVal)

/-- Python `d[k]` as a total lookup: `none` when the key is absent
(where the Python code would raise `KeyError`). First binding wins,
matching dict semantics (keys are unique in a dict). -/
def getF : Doc → String → Option BVal
  | [], _ => none
  | (k1, v1) :: rest, k => if k1 = k then some v1 else getF rest k

/-- Python `d[k] = v`: replace the binding in place if the key exists,
append otherwise (dicts preserve insertion order). -/
def setF : Doc → String → BVal → Doc
  | [], k, v => [(k, v)]
  | (k1, v1) :: rest, k, v =>
    if k1 = k then (k, v) :: rest else (k1, v1) :: setF rest k v

/-- Python `str(...)` applied to a stored value; the only fact the claims
use is that the result is wrapped in `BVal.str`. An `ObjectId` renders as
its hex string. -/
def pyStr : BVal → String
  | .str s => s
  | .objectId s => s
  | .int n => toString n
  | .bool b => if b then "True" else "False"
  | .dt n => toString n
  | .strList l => toString l

/-- A filter, as used by the handlers: a conjunction of field constraints. -/
abbrev Filter := List (String × BVal)

/-- Modelled from the spec: the matching policy of `get_documents` in the
missing `database` module. Spec §4.2: a filter "is a conjunction of
field-equality ... constraints"; "Unmatched fields in the filter that do
not exist on a record cause that record to be excluded (no error)". -/
def matchesFilter (f : Filter) (d : Doc) : Bool :=
  f.all fun kv => getF d kv.1 == some kv.2

/-- The backing store: a collection name yields the records it holds. -/
structure Store where
  colls : String → List Doc

/-- The database handle together with the state needed to assign fresh
identifiers on creation. -/
structure DBState where
  store : Store
  nextId : Nat

/-- The fresh opaque identifier `create_document` assigns next. -/
def freshId (s : DBState) : String := "oid" ++ toString s.nextId

/-- Modelled from the spec: `get_documents(collection, filter, limit)` of
the missing `database` module. Spec §4.2: "returns records in the named
collection matching ALL filter constraints (logical AND)" and "produces at
most `limit` records; returns an empty sequence (never an error) when no
records match". -/
def get_documents (st : Store) (collection : String) (filt : Filter)
    (limit : Nat) : List Doc :=
  ((st.colls collection).filter (matchesFilter filt)).take limit

/-- Modelled from the spec: `create_document(collection, data)` of the
missing `database` module. Spec §4.2: "persists a new record in the named
collection, assigning a fresh unique identifier. Returns the identifier as
an opaque string"; the record "becomes visible to subsequent
`get_documents` calls on the same collection". The stored `_id` is kept in
the store-native `objectId` representation. -/
def create_document (collection : String) (data : Doc) (s : DBState) :
    String × DBState :=
  let newId := freshId s
  let doc := setF data "_id" (.objectId newId)
  ( newId
  , { store := ⟨fun c2 => if c2 = collection then
        s.store.colls collection ++ [doc] else s.store.colls c2⟩
    , nextId := s.nextId + 1 } )

/-! ## Auth & security handlers (`main.py`) -/

/-- Response of `POST /api/auth/login`. -/
structure LoginResponse where
  token : String
  user : Doc
  deriving DecidableEq, Repr

/-- `login` from `main.py`: always succeeds with a demo token. -/
def login (email _password : String) : LoginResponse :=
  { token := "demo.jwt.token"
  , user := [("email", .str email), ("name", .str "Demo User"),
             ("role", .str "admin")] }

/-- `twofa_verify` from `main.py`: compares the submitted code with the
demo code. Total — it raises for no input. -/
def twofa_verify (code : String) : Bool :=
  code == "000000"

/-! ## AI summary handler -/

/-- Request of `POST /api/ai/summary`; `max_sentences` is a Python `int`. -/
structure SummaryRequest where
  text : String
  max_sentences : Int
  deriving Repr

/-- Response of `POST /api/ai/summary`. -/
structure SummaryResponse where
  summary : String
  sentences_used : Int
  deriving DecidableEq, Repr

/-- Python slice `l[:m]` for an `int` bound `m`: for `m ≥ 0` the first `m`
elements, for `m < 0` all but the last `-m`. -/
def pySliceTo {α : Type} (l : List α) (m : Int) : List α :=
  if m < 0 then l.take ((l.length : Int) + m).toNat else l.take m.toNat

/-- The sentence list of `ai_summary`:
`[s.strip() for s in text.replace("\n", " ").split('.') if s.strip()]`. -/
def pySentences (text : String) : List String :=
  (((text.replace "\n" " ").splitOn ".").map String.trim).filter
    fun s => s ≠ ""

/-- `ai_summary` from `main.py`. -/
def ai_summary (p : SummaryRequest) : SummaryResponse :=
  let sentences := pySentences p.text
  { summary := String.intercalate ". " (pySliceTo sentences p.max_sentences)
      ++ (if sentences ≠ [] then "." else "")
  , sentences_used := min (sentences.length : Int) p.max_sentences }

/-! ## AI search handler -/

/-- Request of `POST /api/ai/search`. -/
structure AISearchRequest where
  query : String
  deriving Repr

/-- Response of `POST /api/ai/search`: `{"query": ..., "results": ...}` —
the one shape both the primary path and the fallback path return. -/
structure SearchResponse where
  query : String
  results : List Doc
  deriving DecidableEq, Repr

/-- The raw MongoDB handle `db["book"]` that `ai_search` queries directly.
The book documents are concrete; the `$text` full-text query is kept as a
function field because its outcome depends on server state (it raises, for
instance, when no text index exists), which is exactly the failure
`ai_search` catches. -/
structure RawBookDB where
  docs : List Doc
  textFind : String → Except String (List Doc)

/-- Python `str.lower()` on the ASCII names this backend uses: char-wise
lowercasing. -/
def pyLower (s : String) : String :=
  ⟨s.data.map Char.toLower⟩

/-- Case-insensitive containment of `pat` in `s`, by characters. -/
def ciContains (s pat : String) : Bool :=
  let sl := s.data.map Char.toLower
  let pl := pat.data.map Char.toLower
  (List.range (sl.length + 1)).any fun i => pl.isPrefixOf (sl.drop i)

/-- The fallback query of `ai_search`:
`db["book"].find({"title": {"$regex": query, "$options": "i"}})`.
Modelled from the spec: the store's pattern matcher on a literal pattern is
the "case-insensitive substring" matcher on the `title` field (spec §9
open question); records without a string `title` do not match. -/
def regexTitleFind (d : RawBookDB) (q : String) : List Doc :=
  d.docs.filter fun r =>
    match getF r "title" with
    | some (.str t) => ciContains t q
    | _ => false

/-- The normalization loop of `ai_search`:
`for r in results: r["_id"] = str(r["_id"])`. The subscript read raises
`KeyError` when a record has no `_id`, so the loop is fallible. -/
def normalizeIds : List Doc → Except String (List Doc)
  | [] => .ok []
  | r :: rest =>
    match getF r "_id" with
    | some v =>
      (normalizeIds rest).map fun rs => setF r "_id" (.str (pyStr v)) :: rs
    | none => .error "KeyError: _id"

/-- `ai_search` from `main.py`: try the `$text` full-text query (limit 10);
on any exception fall back to the case-insensitive regex query on `title`
(limit 10); with no database handle both branches yield `[]`. Then
normalize `_id`s and wrap with the original query string. -/
def ai_search (db : Option RawBookDB) (q : String) :
    Except String SearchResponse :=
  let results : List Doc :=
    match db with
    | none => []
    | some d =>
      match d.textFind q with
      | .ok rs => rs.take 10
      | .error _ => (regexTitleFind d q).take 10
  (normalizeIds results).map fun rs => { query := q, results := rs }

/-- The results of an `ai_search` call, empty when the call raised. -/
def exceptResults : Except String SearchResponse → List Doc
  | .ok r => r.results
  | .error _ => []

/-! ## AI recommend handler -/

/-- Response of `POST /api/ai/recommend`. -/
structure RecommendResponse where
  user_id : String
  recommendations : List Doc
  deriving DecidableEq, Repr

/-- The guarded normalization loop used by `ai_recommend`,
`list_invoices` and `list_forum_posts`:
`if "_id" in r: r["_id"] = str(r["_id"])` — total, records without an
`_id` pass through unchanged. -/
def normalizeIdsOpt (ds : List Doc) : List Doc :=
  ds.map fun r =>
    match getF r "_id" with
    | some v => setF r "_id" (.str (pyStr v))
    | none => r

/-- `ai_recommend` from `main.py`: top 5 available books (rule-based). -/
def ai_recommend (db : Option DBState) (user_id : String) :
    RecommendResponse :=
  let items :=
    match db with
    | some s => get_documents s.store "book" [("available", .bool true)] 5
    | none => []
  { user_id := user_id, recommendations := normalizeIdsOpt items }

/-! ## Monetization handlers -/

/-- `create_subscription` from `main.py`. The ambient clock
`datetime.utcnow()` is the explicit parameter `now` (epoch seconds), so
`timedelta(days=30)` is `30 * 86400` seconds. Returns the response dict
`{"id": sub_id, **sub}` together with the updated database state. -/
def create_subscription (now : Nat) (user_id plan : String) (s : DBState) :
    Doc × DBState :=
  let sub : Doc :=
    [("user_id", .str user_id), ("plan", .str plan),
     ("status", .str "active"), ("renews_at", .dt (now + 30 * 86400))]
  let r := create_document "subscription" sub s
  (("id", .str r.1) :: sub, r.2)

/-- Response of `GET /api/billing/invoices`. -/
structure InvoicesResponse where
  invoices : List Doc
  deriving DecidableEq, Repr

/-- `list_invoices` from `main.py`. `filt = {"user_id": user_id} if user_id
else {}`: Python truthiness of an `Optional[str]` is falsy for `None` and
for the empty string. -/
def list_invoices (db : Option DBState) (user_id : Option String) :
    InvoicesResponse :=
  let filt : Filter :=
    match user_id with
    | some u => if u = "" then [] else [("user_id", .str u)]
    | none => []
  let docs :=
    match db with
    | some s => get_documents s.store "invoice" filt 50
    | none => []
  { invoices := normalizeIdsOpt docs }

/-! ## Community handlers -/

/-- Request of `POST /api/community/forums`. -/
structure ForumPostIn where
  user_id : String
  title : String
  content : String
  tags : List String
  deriving Repr

/-- `payload.dict()` for a `ForumPostIn`. -/
def ForumPostIn.dict (p : ForumPostIn) : Doc :=
  [("user_id", .str p.user_id), ("title", .str p.title),
   ("content", .str p.content), ("tags", .strList p.tags)]

/-- `create_forum_post` from `main.py`: persist the payload dict and echo
it back with the new identifier. -/
def create_forum_post (p : ForumPostIn) (s : DBState) : Doc × DBState :=
  let r := create_document "forumpost" p.dict s
  (("id", .str r.1) :: p.dict, r.2)

/-- Response of `GET /api/community/forums`. -/
structure ForumPostsResponse where
  posts : List Doc
  deriving DecidableEq, Repr

/-- `list_forum_posts` from `main.py`; the tag filter has the same
truthiness guard as the invoice filter. -/
def list_forum_posts (db : Option DBState) (tag : Option String) :
    ForumPostsResponse :=
  let filt : Filter :=
    match tag with
    | some t => if t = "" then [] else [("tags", .str t)]
    | none => []
  let posts :=
    match db with
    | some s => get_documents s.store "forumpost" filt 50
    | none => []
  { posts := normalizeIdsOpt posts }

/-! ## Schema exposure handler -/

/-- What `get_schema_index` observes about one entry of the `schemas`
module namespace: whether the object is a class (`isinstance(obj, type)`)
and whether that class subclasses pydantic's `BaseModel`. -/
structure PyObj where
  isType : Bool
  subclassOfBaseModel : Bool
  deriving DecidableEq, Repr

/-- The `__dict__` of `schemas.py`, in definition order: module dunders,
the imports (`BaseModel`, `Field`, `Optional`, `List`, `datetime`) and the
eight declared model classes. `BaseModel` is a class and a subclass of
itself; `datetime` is a class but no pydantic model; `Field` is a
function; the `typing` aliases are not classes. -/
def schemasDict : List (String × PyObj) :=
  [ ("__name__", ⟨false, false⟩)
  , ("__doc__", ⟨false, false⟩)
  , ("BaseModel", ⟨true, true⟩)
  , ("Field", ⟨false, false⟩)
  , ("Optional", ⟨false, false⟩)
  , ("List", ⟨false, false⟩)
  , ("datetime", ⟨true, false⟩)
  , ("User", ⟨true, true⟩)
  , ("Book", ⟨true, true⟩)
  , ("Transaction", ⟨true, true⟩)
  , ("Invoice", ⟨true, true⟩)
  , ("Subscription", ⟨true, true⟩)
  , ("ForumPost", ⟨true, true⟩)
  , ("Club", ⟨true, true⟩)
  , ("Recommendation", ⟨true, true⟩) ]

/-- `get_schema_index` from `main.py`: the names in the `schemas` module
bound to classes that subclass `BaseModel`, excluding the name
`"BaseModel"` itself. The comprehension is total, so the surrounding
`try/except` never fires for this registry. -/
def get_schema_index : List String :=
  (schemasDict.filter fun p =>
    p.2.isType && p.2.subclassOfBaseModel && p.1 != "BaseModel").map
    fun p => p.1

/-! ## Fixtures used by concrete witnesses -/

/-- A book database whose full-text query always raises (no text index),
forcing `ai_search` onto its regex fallback. -/
def fallbackDB : RawBookDB :=
  { docs :=
      [ [("_id", .objectId "aa"), ("title", .str "Dune"),
         ("author", .str "Herbert")]
      , [("_id", .objectId "bb"), ("title", .str "Emma"),
         ("author", .str "Austen")] ]
  , textFind := fun _ => .error "text index required" }

/-- The normalized fallback results of searching `fallbackDB` for "dun". -/
def fallbackResults : List Doc :=
  [[("_id", .str "aa"), ("title", .str "Dune"), ("author", .str "Herbert")]]

/-! ## Helper lemmas -/

/-- Reading back the field just written. -/
theorem getF_setF_self (d : Doc) (k : String) (v : BVal) :
    getF (setF d k v) k = some v := by
  induction d with
  | nil => simp [setF, getF]
  | cons p rest ih =>
    obtain ⟨k1, v1⟩ := p
    by_cases h : k1 = k
    · simp [setF, getF, h]
    · simp [setF, getF, h, ih]

/-- Every `_id` field present in the records is a plain string, never a
store-native identifier. -/
def idsAreStrings (ds : List Doc) : Prop :=
  ∀ d ∈ ds, ∀ v, getF d "_id" = some v → ∃ s, v = BVal.str s

/-- The fallible normalization loop preserves the record count. -/
theorem normalizeIds_length (l : List Doc) :
    ∀ rs, normalizeIds l = .ok rs → rs.length = l.length := by
  induction l with
  | nil =>
    intro rs h
    simp [normalizeIds] at h
    simp [← h]
  | cons r rest ih =>
    intro rs h
    cases hv : getF r "_id" with
    | none => simp [normalizeIds, hv] at h
    | some v =>
      cases hr : normalizeIds rest with
      | error e => simp [normalizeIds, hv, hr, Except.map] at h
      | ok rs2 =>
        simp [normalizeIds, hv, hr, Except.map] at h
        simp [← h, ih rs2 hr]

/-- After the fallible normalization loop succeeds, every `_id` is a
plain string. -/
theorem normalizeIds_ids (l : List Doc) :
    ∀ rs, normalizeIds l = .ok rs → idsAreStrings rs := by
  induction l with
  | nil =>
    intro rs h
    simp [normalizeIds] at h
    subst h
    intro d hd
    simp at hd
  | cons r rest ih =>
    intro rs h
    cases hv : getF r "_id" with
    | none => simp [normalizeIds, hv] at h
    | some v =>
      cases hr : normalizeIds rest with
      | error e => simp [normalizeIds, hv, hr, Except.map] at h
      | ok rs2 =>
        simp [normalizeIds, hv, hr, Except.map] at h
        intro d hd w hw
        rw [← h] at hd
        rcases List.mem_cons.mp hd with hEq | hMem
        · subst hEq
          rw [getF_setF_self] at hw
          exact ⟨pyStr v, (Option.some.inj hw).symm⟩
        · exact ih rs2 hr d hMem w hw

/-- The guarded normalization loop preserves the record count. -/
theorem normalizeIdsOpt_length (l : List Doc) :
    (normalizeIdsOpt l).length = l.length :=
  List.length_map _ _

/-- After the guarded normalization loop, every `_id` that is present is
a plain string. -/
theorem normalizeIdsOpt_ids (l : List Doc) :
    idsAreStrings (normalizeIdsOpt l) := by
  intro d hd v hv
  simp only [normalizeIdsOpt, List.mem_map] at hd
  obtain ⟨r, _, hmatch⟩ := hd
  cases hgv : getF r "_id" with
  | some w =>
    rw [hgv] at hmatch
    rw [← hmatch, getF_setF_self] at hv
    exact ⟨pyStr w, (Option.some.inj hv).symm⟩
  | none =>
    rw [hgv] at hmatch
    rw [← hmatch, hgv] at hv
    cases hv

/-- The normalized search results keep all `_id`s as plain strings,
whatever document list the query produced. -/
theorem mapNormalize_ids (q : String) (l : List Doc) :
    idsAreStrings (exceptResults
      ((normalizeIds l).map fun rs => SearchResponse.mk q rs)) := by
  cases h : normalizeIds l with
  | ok rs =>
    simpa [exceptResults, Except.map, h] using normalizeIds_ids l rs h
  | error e =>
    simp [exceptResults, Except.map, h, idsAreStrings]

/-- The normalized search results are no longer than the raw query
results. -/
theorem mapNormalize_length (q : String) (l : List Doc) :
    (exceptResults
      ((normalizeIds l).map fun rs => SearchResponse.mk q rs)).length
      ≤ l.length := by
  cases h : normalizeIds l with
  | ok rs => simp [exceptResults, Except.map, h, normalizeIds_length l rs h]
  | error e => simp [exceptResults, Except.map, h]

/-- `get_documents` honours its limit. -/
theorem get_documents_length_le (st : Store) (c : String) (f : Filter)
    (N : Nat) : (get_documents st c f N).length ≤ N :=
  List.length_take_le _ _

/-! ## Claim theorems -/

/-- C1: when the full-text query against the book collection raises,
`ai_search` falls back to the case-insensitive regex match on `title`
instead of failing, and the fallback response has the same shape as the
primary path: a `SearchResponse` carrying the original query string and a
results sequence. -/
theorem ai_search_falls_back (d : RawBookDB) (q e : String)
    (h : d.textFind q = .error e) (rs : List Doc)
    (hn : normalizeIds ((regexTitleFind d q).take 10) = .ok rs) :
    ai_search (some d) q = .ok { query := q, results := rs } := by
  simp [ai_search, h, hn, Except.map]

/-- Witness for C1: on `fallbackDB` the full-text query raises, and
`ai_search` returns the normalized regex-fallback results for "dun". -/
theorem ai_search_falls_back_witness :
    fallbackDB.textFind "dun" = .error "text index required"
  ∧ normalizeIds ((regexTitleFind fallbackDB "dun").take 10)
      = .ok fallbackResults
  ∧ ai_search (some fallbackDB) "dun"
      = .ok { query := "dun", results := fallbackResults } :=
  ⟨rfl, rfl,
    ai_search_falls_back fallbackDB "dun" "text index required" rfl
      fallbackResults rfl⟩

/-- C2: every record returned by the listing endpoints (`ai_search`,
`ai_recommend`, `list_invoices`, `list_forum_posts`) carries its `_id`,
when present, as a plain string, never as a store-native identifier. -/
theorem response_ids_are_strings (db : Option RawBookDB)
    (db2 db3 db4 : Option DBState) (q uid : String)
    (ouid otag : Option String) :
    idsAreStrings (exceptResults (ai_search db q))
  ∧ idsAreStrings (ai_recommend db2 uid).recommendations
  ∧ idsAreStrings (list_invoices db3 ouid).invoices
  ∧ idsAreStrings (list_forum_posts db4 otag).posts :=
  ⟨mapNormalize_ids q _, normalizeIdsOpt_ids _, normalizeIdsOpt_ids _,
    normalizeIdsOpt_ids _⟩

/-- C3: `get_documents` with `limit = N` returns at most `N` records; in
particular `ai_search` returns at most 10 results, `ai_recommend` at most
5 recommendations and `list_invoices` at most 50 invoices. -/
theorem limit_bounds (st : Store) (c : String) (f : Filter) (N : Nat)
    (db : Option RawBookDB) (db2 db3 : Option DBState) (q uid : String)
    (ouid : Option String) :
    (get_documents st c f N).length ≤ N
  ∧ (exceptResults (ai_search db q)).length ≤ 10
  ∧ (ai_recommend db2 uid).recommendations.length ≤ 5
  ∧ (list_invoices db3 ouid).invoices.length ≤ 50 := by
  refine ⟨get_documents_length_le st c f N, ?_, ?_, ?_⟩
  · simp only [ai_search]
    refine le_trans (mapNormalize_length q _) ?_
    cases db with
    | none => simp
    | some d =>
      show (match d.textFind q with
        | .ok rs => rs.take 10
        | .error _ => (regexTitleFind d q).take 10).length ≤ 10
      cases d.textFind q with
      | ok rs => exact List.length_take_le _ _
      | error e => exact List.length_take_le _ _
  · simp only [ai_recommend, normalizeIdsOpt_length]
    cases db2 with
    | none => simp
    | some s => exact get_documents_length_le _ _ _ _
  · simp only [list_invoices, normalizeIdsOpt_length]
    cases db3 with
    | none => simp
    | some s => exact get_documents_length_le _ _ _ _

/-- C4: every login succeeds with the fixed demo token and a user object
echoing the request's email, with name "Demo User" and role "admin";
the password is never consulted. -/
theorem login_always_succeeds (email password : String) :
    (login email password).token = "demo.jwt.token"
  ∧ getF (login email password).user "email" = some (.str email)
  ∧ getF (login email password).user "name" = some (.str "Demo User")
  ∧ getF (login email password).user "role" = some (.str "admin") :=
  ⟨rfl, rfl, rfl, rfl⟩

/-- C5: the schema endpoint returns exactly the names of the eight model
classes declared in `schemas.py`, excluding `BaseModel` itself; the
computation is total, so the handler cannot fail on this registry. -/
theorem schema_index_exact :
    get_schema_index
      = ["User", "Book", "Transaction", "Invoice", "Subscription",
         "ForumPost", "Club", "Recommendation"] := rfl

/-- C6: with no database handle, `ai_recommend`, `list_invoices` and
`list_forum_posts` do not fail: each returns its normal response shape
with an empty record sequence. -/
theorem db_none_returns_empty (uid : String) (ouid otag : Option String) :
    ai_recommend none uid = { user_id := uid, recommendations := [] }
  ∧ list_invoices none ouid = { invoices := [] }
  ∧ list_forum_posts none otag = { posts := [] } :=
  ⟨rfl, rfl, rfl⟩

/-- C7: `create_subscription` defaults the fields before persisting — the
stored record's status is "active" and its `renews_at` is the creation
time plus 30 days — and the response echoes the new identifier together
with all stored fields. -/
theorem create_subscription_defaults (now : Nat) (uid plan : String)
    (s : DBState) :
    (create_subscription now uid plan s).2.store.colls "subscription"
      = s.store.colls "subscription"
        ++ [[("user_id", .str uid), ("plan", .str plan),
             ("status", .str "active"),
             ("renews_at", .dt (now + 30 * 86400)),
             ("_id", .objectId (freshId s))]]
  ∧ (create_subscription now uid plan s).1
      = [("id", .str (freshId s)), ("user_id", .str uid),
         ("plan", .str plan), ("status", .str "active"),
         ("renews_at", .dt (now + 30 * 86400))] :=
  ⟨rfl, rfl⟩

/-- C8: the handlers address collections named by lowercasing the schema
class: forum posts are persisted in "forumpost", subscriptions in
"subscription" (leaving every other collection untouched), and the
recommendation query reads the "book" collection. -/
theorem handlers_use_lowercased_collections (p : ForumPostIn) (now : Nat)
    (uid plan buid : String) (s s2 s3 : DBState) :
    (pyLower "ForumPost" = "forumpost"
      ∧ (create_forum_post p s).2.store.colls = fun c =>
          if c = "forumpost" then
            s.store.colls "forumpost"
              ++ [setF p.dict "_id" (.objectId (freshId s))]
          else s.store.colls c)
  ∧ (pyLower "Subscription" = "subscription"
      ∧ (create_subscription now uid plan s2).2.store.colls = fun c =>
          if c = "subscription" then
            s2.store.colls "subscription"
              ++ [setF [("user_id", .str uid), ("plan", .str plan),
                        ("status", .str "active"),
                        ("renews_at", .dt (now + 30 * 86400))]
                    "_id" (.objectId (freshId s2))]
          else s2.store.colls c)
  ∧ (pyLower "Book" = "book"
      ∧ ai_recommend (some s3) buid
          = { user_id := buid
            , recommendations := normalizeIdsOpt
                (get_documents s3.store "book"
                  [("available", .bool true)] 5) }) :=
  ⟨⟨by decide, rfl⟩, ⟨by decide, rfl⟩, ⟨by decide, rfl⟩⟩

/-- C9: for `max_sentences ≥ 0`, `ai_summary` reports `sentences_used`
equal to the minimum of `max_sentences` and the number of non-empty
'.'-delimited sentences of the text; with at least one sentence and
`max_sentences = 0` the summary is the single character ".". -/
theorem ai_summary_spec (p : SummaryRequest) (h : 0 ≤ p.max_sentences) :
    (ai_summary p).sentences_used
      = min p.max_sentences ((pySentences p.text).length : Int)
  ∧ (pySentences p.text ≠ [] → p.max_sentences = 0 →
      (ai_summary p).summary = ".") := by
  constructor
  · simp [ai_summary, min_comm]
  · intro hne h0
    simp [ai_summary, h0, pySliceTo, hne]
    rfl

/-- Witness for C9 at the request summarizing "Hello. World." with
`max_sentences = 0`. -/
theorem ai_summary_spec_witness :
    (0 : Int) ≤ 0
  ∧ ((ai_summary ⟨"Hello. World.", 0⟩).sentences_used
        = min 0 ((pySentences "Hello. World.").length : Int)
    ∧ (pySentences "Hello. World." ≠ [] → (0 : Int) = 0 →
        (ai_summary ⟨"Hello. World.", 0⟩).summary = ".")) :=
  ⟨by decide, ai_summary_spec ⟨"Hello. World.", 0⟩ (by decide)⟩

/-- C10: the 2FA verification reports `verified = true` exactly when the
submitted code is the string "000000"; the comparison is total, so no
code value makes it raise. -/
theorem twofa_verify_iff (code : String) :
    twofa_verify code = true ↔ code = "000000" := by
  simp [twofa_verify]

end LibVault
